import Mathlib

/-
Verification of the cim-component crate (src/lib.rs).

The crate defines:
  * `pub trait Component: Any + Send + Sync + Debug` with methods
    `as_any(&self) -> &dyn Any`, `clone_box(&self) -> Box<dyn Component>`,
    `type_name(&self) -> &'static str`;
  * `pub enum ComponentError { AlreadyExists(String), NotFound(String) }`
    deriving Debug, Clone, PartialEq, with a Display impl and an
    `impl std::error::Error`;
  * `pub type ComponentResult<T> = Result<T, ComponentError>`;
  * `pub fn component_type_id<T: Component + 'static>() -> TypeId`.

Embedding choices.  A family of concrete Rust types implementing the
Component trait is modelled by an index type `ι` with decidable equality
together with a carrier family `carrier : ι → Type`: each index stands for
one concrete Rust type, and `TypeId::of::<T>()` — an opaque key in bijection
with the concrete type — is modelled by the index itself.  A type-erased
value (`&dyn Any` / `Box<dyn Any>` / `Box<dyn Component>`) is a dependent
pair of a runtime type id and a payload of that type; `Any::downcast_ref`
compares the stored id with the requested one and returns the payload on
success and `none` on mismatch, exactly as the Rust standard library does.
The trait method bodies follow the implementation pattern documented in the
crate's own rustdoc example (`as_any` returns `self`; `clone_box` returns
`Box::new(self.clone())` where the derived `Clone` produces an equal owned
value; `type_name` returns a string constant of the type), the one
behaviour the crate documents for implementers.  Because every trait method
takes `&self` (a shared borrow), each method is also given a state-passing
form returning the method result together with the component value after
the call.
-/

namespace CimComponent

section TypeErasure

variable {ι : Type} [DecidableEq ι] {carrier : ι → Type}

/-- A type-erased component value: models `Box<dyn Any>` (equally, the view
`&dyn Any` or a `Box<dyn Component>`): a runtime type id paired with a
payload of the corresponding concrete type. -/
def AnyVal (carrier : ι → Type) : Type := Σ i : ι, carrier i

/-- Models `Any::type_id`: the runtime type id stored in a type-erased value. -/
def typeIdOf (a : AnyVal carrier) : ι := a.1

/-- Models `Any::downcast_ref::<U>`: succeeds with the payload exactly when
the stored runtime type id equals the requested one, otherwise returns
`none`; it never raises an error. -/
def downcast_ref (j : ι) (a : AnyVal carrier) : Option (carrier j) :=
  if h : a.1 = j then some (h ▸ a.2) else none

/-- Models `Component::as_any` under the documented implementation pattern
`fn as_any(&self) -> &dyn Any { self }`: the value itself behind a
type-erased view carrying its runtime type id. -/
def as_any (i : ι) (v : carrier i) : AnyVal carrier := ⟨i, v⟩

/-- Models `Component::clone_box` under the documented implementation pattern
`fn clone_box(&self) -> Box<dyn Component> { Box::new(self.clone()) }`:
a freshly owned type-erased box whose payload is the value produced by the
concrete type's `Clone`, which for the documented derived `Clone` is a copy
equal to the original. -/
def clone_box (i : ι) (v : carrier i) : AnyVal carrier := ⟨i, v⟩

/-- Models `Component::type_name` under the documented implementation pattern
`fn type_name(&self) -> &'static str { "Label" }`: the impl for the concrete
type indexed by `i` returns the string constant `typeName i`, ignoring the
instance. -/
def type_name (typeName : ι → String) (i : ι) (_v : carrier i) : String :=
  typeName i

/-- Models `pub fn component_type_id<T: Component + 'static>() -> TypeId`,
whose body is `TypeId::of::<T>()`.  A `TypeId` is an opaque key in bijection
with the concrete type, so the index standing for the type serves as the
key; no instance of the type is taken. -/
def component_type_id (i : ι) : ι := i

/-- State-passing form of `as_any`: the method takes `&self`, so a call
returns its result together with the component value after the call. -/
def as_any_call (i : ι) (v : carrier i) : AnyVal carrier × carrier i :=
  (as_any i v, v)

/-- State-passing form of `clone_box`: the method takes `&self`, so a call
returns its result together with the component value after the call. -/
def clone_box_call (i : ι) (v : carrier i) : AnyVal carrier × carrier i :=
  (clone_box i v, v)

/-- State-passing form of `type_name`: the method takes `&self`, so a call
returns its result together with the component value after the call. -/
def type_name_call (typeName : ι → String) (i : ι) (v : carrier i) :
    String × carrier i :=
  (type_name typeName i v, v)

end TypeErasure

/-- Models `pub enum ComponentError { AlreadyExists(String), NotFound(String) }`. -/
inductive ComponentError : Type where
  | AlreadyExists : String → ComponentError
  | NotFound : String → ComponentError
deriving DecidableEq

/-- Models the derived `PartialEq` on `ComponentError`: two values compare
equal exactly when they are the same variant carrying equal strings. -/
def ComponentError.beq : ComponentError → ComponentError → Bool
  | .AlreadyExists a, .AlreadyExists b => a == b
  | .NotFound a, .NotFound b => a == b
  | _, _ => false

/-- Models `impl Display for ComponentError`: renders
`"Component already exists: {}"` or `"Component not found: {}"` with the
carried name substituted for the placeholder. -/
def ComponentError.display : ComponentError → String
  | .AlreadyExists name => "Component already exists: " ++ name
  | .NotFound name => "Component not found: " ++ name

/-- Models the derived `Clone` on `ComponentError`: an owned copy with the
same variant whose field is the clone of the original's string (and
`String::clone` yields an equal string). -/
def ComponentError.clone : ComponentError → ComponentError
  | .AlreadyExists name => .AlreadyExists name
  | .NotFound name => .NotFound name

/-- Models `pub type ComponentResult<T> = Result<T, ComponentError>`: a
transparent alias for a result carrying either a success value of type `T`
or a `ComponentError`. -/
abbrev ComponentResult (T : Type) : Type := Except ComponentError T

/-- Models the `?` operator on a `ComponentResult` (the generic
error-propagation mechanism `ComponentError` integrates with through its
`std::error::Error` impl): a success value flows into the continuation and
an error short-circuits unchanged. -/
def componentTry {T U : Type} (r : ComponentResult T)
    (f : T → ComponentResult U) : ComponentResult U :=
  match r with
  | .ok t => f t
  | .error e => .error e

/-
Concrete component types used as witnesses, taken from the crate's rustdoc
example and the spec's test scenario: `Label(String)` and `Weight(f64)`.
Only the type identity of `Weight` matters to any claim, so its numeric
payload is modelled by an integer.
-/

/-- Models `struct Label(String)` from the crate's rustdoc example. -/
structure Label : Type where
  val : String
deriving DecidableEq

/-- Models `struct Weight(f64)` from the spec's test scenario; the claims
use it only as a second concrete type distinct from `Label`, so the numeric
payload is modelled by an integer. -/
structure Weight : Type where
  val : Int
deriving DecidableEq

/-- Index type for the example universe of concrete component types. -/
inductive ExTy : Type where
  | label
  | weight
deriving DecidableEq

/-- Carrier family of the example universe. -/
def exCarrier : ExTy → Type
  | .label => Label
  | .weight => Weight

/-- The `type_name` constants of the example universe: `"Label"` and
`"Weight"`, as in the rustdoc example and the spec's scenario. -/
def exTypeName : ExTy → String
  | .label => "Label"
  | .weight => "Weight"

/-
Two distinct concrete Rust types whose Component impls both return the
type name `"Label"`: e.g. `mod a { struct Label(String); }` and
`mod b { struct Label(u32); }`, each implementing the trait exactly as the
rustdoc example prescribes and each returning its own struct name.  Both
impls are legal, so nothing in the crate forces `type_name` to distinguish
distinct concrete types.
-/

/-- Models `a::Label(String)`: first of the two same-named types. -/
structure ALabel : Type where
  val : String
deriving DecidableEq

/-- Models `b::Label(u32)`: second of the two same-named types; the payload
is modelled by a natural number. -/
structure BLabel : Type where
  val : Nat
deriving DecidableEq

/-- Index type for the universe containing the two same-named types. -/
inductive DupTy : Type where
  | aLabel
  | bLabel
deriving DecidableEq

/-- Carrier family of the same-named-types universe. -/
def dupCarrier : DupTy → Type
  | .aLabel => ALabel
  | .bLabel => BLabel

/-- The `type_name` constants of the same-named-types universe: both impls
return their struct name, `"Label"`. -/
def dupTypeName : DupTy → String
  | _ => "Label"

/-- Claim C1: downcasting the type-erased view `as_any v` back to the
concrete type of `v` succeeds and yields a value equal to `v`, and
downcasting it to any other concrete type fails by returning `none` rather
than raising an error. -/
theorem downcast_as_any_roundtrip {ι : Type} [DecidableEq ι]
    {carrier : ι → Type} (i : ι) (v : carrier i) (j : ι) (hne : j ≠ i) :
    downcast_ref i (as_any i v) = some v ∧
      downcast_ref j (as_any i v) = none := by
  constructor
  · exact dif_pos rfl
  · exact dif_neg (fun h => hne h.symm)

/-- Witness for C1: in the example universe, the view of `Label("north")`
downcasts to `Label` as `Label("north")` and fails to downcast to `Weight`. -/
theorem downcast_as_any_roundtrip_witness :
    ExTy.weight ≠ ExTy.label ∧
      (@downcast_ref ExTy _ exCarrier ExTy.label
          (@as_any ExTy exCarrier ExTy.label (Label.mk "north")) =
        some (Label.mk "north") ∧
      @downcast_ref ExTy _ exCarrier ExTy.weight
          (@as_any ExTy exCarrier ExTy.label (Label.mk "north")) = none) :=
  ⟨by decide,
    @downcast_as_any_roundtrip ExTy _ exCarrier ExTy.label (Label.mk "north")
      ExTy.weight (by decide)⟩

/-- Claim C2: cloning a component into a type-erased box and downcasting the
box back to the concrete type yields a value equal to the original, and the
box carries the same runtime type id as the original's view.  The clone is a
fresh owned value, so in this pure value semantics it shares no mutable
state with the original. -/
theorem clone_box_downcast_roundtrip {ι : Type} [DecidableEq ι]
    {carrier : ι → Type} (i : ι) (v : carrier i) :
    downcast_ref i (clone_box i v) = some v ∧
      typeIdOf (clone_box i v) = typeIdOf (as_any i v) := by
  constructor
  · exact dif_pos rfl
  · rfl

/-- Claim C3: the type-identity helper, which needs no instance in hand,
returns equal keys for the same concrete type and unequal keys for distinct
concrete types. -/
theorem component_type_id_spec {ι : Type} (i j : ι) :
    (i = j → component_type_id i = component_type_id j) ∧
      (i ≠ j → component_type_id i ≠ component_type_id j) :=
  ⟨fun h => congrArg _ h, fun h hc => h hc⟩

/-- Witness for C3: in the example universe, the key of `Label` equals
itself and differs from the key of `Weight`. -/
theorem component_type_id_spec_witness :
    component_type_id ExTy.label = component_type_id ExTy.label ∧
      component_type_id ExTy.label ≠ component_type_id ExTy.weight :=
  ⟨(component_type_id_spec ExTy.label ExTy.label).1 rfl,
    (component_type_id_spec ExTy.label ExTy.weight).2 (by decide)⟩

/-- Claim C4: rendering `AlreadyExists n` yields exactly
`"Component already exists: " ++ n` and rendering `NotFound n` yields
exactly `"Component not found: " ++ n`; in particular the two `"Label"`
instances render as stated. -/
theorem componentError_display_spec :
    (∀ n : String,
        ComponentError.display (ComponentError.AlreadyExists n) =
            "Component already exists: " ++ n ∧
          ComponentError.display (ComponentError.NotFound n) =
            "Component not found: " ++ n) ∧
      ComponentError.display (ComponentError.AlreadyExists "Label") =
          "Component already exists: Label" ∧
        ComponentError.display (ComponentError.NotFound "Label") =
          "Component not found: Label" :=
  ⟨fun _ => ⟨rfl, rfl⟩, by decide, by decide⟩

/-- Claim C5: the derived equality on `ComponentError` holds exactly for the
same variant carrying equal name strings; in particular
`AlreadyExists "Label"` equals `AlreadyExists "Label"` and differs from
`NotFound "Label"`. -/
theorem componentError_beq_iff :
    (∀ e1 e2 : ComponentError,
        ComponentError.beq e1 e2 = true ↔
          ((∃ n, e1 = ComponentError.AlreadyExists n ∧
              e2 = ComponentError.AlreadyExists n) ∨
            (∃ n, e1 = ComponentError.NotFound n ∧
              e2 = ComponentError.NotFound n))) ∧
      ComponentError.beq (ComponentError.AlreadyExists "Label")
          (ComponentError.AlreadyExists "Label") = true ∧
        ComponentError.beq (ComponentError.AlreadyExists "Label")
          (ComponentError.NotFound "Label") = false := by
  refine ⟨fun e1 e2 => ?_, by decide, by decide⟩
  cases e1 <;> cases e2 <;> simp [ComponentError.beq] <;> exact eq_comm

/-- Counterexample to claim C6: the two distinct concrete types `a::Label`
and `b::Label`, each implementing the Component trait exactly as the crate
documents, report the same `type_name`, so distinct concrete types need not
have distinct type names. -/
theorem type_name_distinctness_counterexample :
    DupTy.aLabel ≠ DupTy.bLabel ∧
      @type_name DupTy dupCarrier dupTypeName DupTy.aLabel (ALabel.mk "x") =
        @type_name DupTy dupCarrier dupTypeName DupTy.bLabel (BLabel.mk 0) :=
  ⟨by decide, rfl⟩

/-- Claim C6 as amended: `type_name` returns the same string for every
instance of the same concrete type (it is determined by the type alone under
the documented implementation pattern, hence stable for the program's
lifetime); distinct concrete types may nevertheless share a name, though the
spec's example types `Label` and `Weight` do report the distinct names
`"Label"` and `"Weight"`. -/
theorem type_name_constant_per_type {ι : Type} {carrier : ι → Type}
    (typeName : ι → String) (i : ι) (v w : carrier i) :
    type_name typeName i v = type_name typeName i w ∧
      ∀ (l : Label) (x : Weight),
        @type_name ExTy exCarrier exTypeName ExTy.label l ≠
          @type_name ExTy exCarrier exTypeName ExTy.weight x :=
  ⟨rfl, fun _ _ => by show ("Label" : String) ≠ "Weight"; decide⟩

/-- Claim C7: every operation of the Component capability takes a shared
borrow, so each call leaves the component value it is invoked on unchanged:
the interface exposes no mutation. -/
theorem component_interface_immutable {ι : Type} {carrier : ι → Type}
    (typeName : ι → String) (i : ι) (v : carrier i) :
    (as_any_call i v).2 = v ∧ (clone_box_call i v).2 = v ∧
      (type_name_call typeName i v).2 = v :=
  ⟨rfl, rfl, rfl⟩

/-- Claim C8: `ComponentResult T` carries either a success value of type `T`
or a `ComponentError`, and the generic propagation mechanism passes a
success into the continuation and short-circuits an error unchanged, with no
special-casing. -/
theorem componentResult_spec :
    ∀ (T : Type) (r : ComponentResult T),
      ((∃ t, r = Except.ok t) ∨ (∃ e, r = Except.error e)) ∧
        ∀ (U : Type) (f : T → ComponentResult U),
          (∀ e, componentTry (Except.error e) f = Except.error e) ∧
            ∀ t, componentTry (Except.ok t) f = f t := by
  intro T r
  refine ⟨?_, fun U f => ⟨fun _ => rfl, fun _ => rfl⟩⟩
  cases r with
  | ok t => exact Or.inl ⟨t, rfl⟩
  | error e => exact Or.inr ⟨e, rfl⟩

/-- Claim C10: cloning a `ComponentError` yields a value equal to the
original — same variant and same name string — so an error can be stored or
re-reported without consuming the original. -/
theorem componentError_clone_spec :
    ∀ e : ComponentError,
      ComponentError.clone e = e ∧
        ComponentError.beq (ComponentError.clone e) e = true := by
  intro e
  cases e <;> exact ⟨rfl, by simp [ComponentError.clone, ComponentError.beq]⟩

end CimComponent
